import Mathlib

/- Shallow embedding of the Zendesk -> Shopify order-note sync script
(src/scipt.py). Pure string manipulation and selection logic is translated
directly; the external HTTP calls (Zendesk comment fetch, user fetch,
Shopify order lookup and order write) are modelled as an explicit trace of
external calls, and console output of the dry-run preview is modelled as a
surfaced value. Character classes of the Python regular expression and of
str.strip are modelled over ASCII. -/

namespace ZSync

/- Python str.isspace characters used by str.strip / str.rstrip
(ASCII subset: space, tab, newline, carriage return, vertical tab, form feed). -/
def pyIsSpace (c : Char) : Bool :=
  c == ' ' || c == '\t' || c == '\n' || c == '\r' || c == '\x0b' || c == '\x0c'

/- Python str.strip(): remove leading and trailing whitespace. -/
def pyStrip (s : String) : String :=
  String.mk (((s.data.dropWhile pyIsSpace).reverse.dropWhile pyIsSpace).reverse)

/- Python str.rstrip(): remove trailing whitespace. -/
def pyRstrip (s : String) : String :=
  String.mk ((s.data.reverse.dropWhile pyIsSpace).reverse)

/- A Zendesk ticket comment, with the fields the script reads. `public` is
an `Option Bool` because the script accesses it as `c.get("public", True)`,
so the flag may be absent from the record. -/
structure Comment where
  public : Option Bool
  body : String
  author_id : Nat
  created_at : Option String
deriving DecidableEq

/- A Shopify order, with the fields the script reads (`order["id"]`,
`order.get("name")`, `order.get("note")`). -/
structure Order where
  id : Nat
  name : Option String
  note : Option String
deriving DecidableEq

/- get_latest_private_comment (src/scipt.py:94-104): scan the comments in
the order supplied and return the first one whose `public` flag, defaulted
to True when absent, is false; otherwise (None, None). -/
def get_latest_private_comment (comments : List Comment) :
    Option Comment × Option String :=
  match comments.find? (fun c => !(c.public.getD true)) with
  | some c => (some c, c.created_at)
  | none => (none, none)

/- append_note_to_shopify_order's merge of the existing order note with the
new block (src/scipt.py:157-162): `order.get("note") or ""`, then either
`existing.rstrip() + "\n\n" + block` or just the block. -/
def new_note_of (order : Order) (note_block : String) : String :=
  let existing_note := order.note.getD ""
  if pyStrip existing_note ≠ "" then pyRstrip existing_note ++ "\n\n" ++ note_block
  else note_block

/- The external calls the script can issue. -/
inductive ExtCall where
  | getComments (ticket_id : String)
  | getUser (user_id : Nat)
  | getOrders (order_name : String)
  | putOrder (order_id : Nat) (note : String)
deriving DecidableEq

/- Whether an external call is the order-note write (the PUT). -/
def isPut : ExtCall → Bool
  | ExtCall.putOrder _ _ => true
  | _ => false

/- append_note_to_shopify_order (src/scipt.py:153-178): computes the merged
note; in dry-run mode it prints the would-be note and issues no external
call (modelled as surfacing the preview value), otherwise it issues exactly
one PUT of the new note keyed by the order id. -/
def append_note_to_shopify_order (order : Order) (note_block : String)
    (dry_run : Bool) : List ExtCall × Option String :=
  let new_note := new_note_of order note_block
  if dry_run then ([], some new_note)
  else ([ExtCall.putOrder order.id new_note], none)

/- A regex word character \w (ASCII): letter, digit or underscore. -/
def isWordChar (c : Char) : Bool := c.isAlphanum || c == '_'

/- The character at index k exists and is a decimal digit (\d, ASCII). -/
def checkDigit (l : List Char) (k : Nat) : Bool :=
  match l.get? k with
  | some c => c.isDigit
  | none => false

/- The character at index i exists and equals f. -/
def charIs (l : List Char) (i : Nat) (f : Char) : Bool :=
  match l.get? i with
  | some c => c == f
  | none => false

/- Word boundary \b after a word character ending at index k - 1: index k is
past the end or holds a non-word character. -/
def boundaryAfter (l : List Char) (k : Nat) : Bool :=
  match l.get? k with
  | some c => !isWordChar c
  | none => true

/- Word boundary \b before a word character at index i: i is the start of
the text or the previous character is a non-word character. -/
def boundaryBefore (l : List Char) (i : Nat) : Bool :=
  match i with
  | 0 => true
  | j + 1 =>
    match l.get? j with
    | some c => !isWordChar c
    | none => false

/- One attempt of the regex \bA\d{6}\b at the current position (the leading
\b is checked by the caller): literal 'A', six digits, then a trailing word
boundary; on success the seven matched characters. -/
def matchHere (l : List Char) : Option (List Char) :=
  if charIs l 0 'A' && checkDigit l 1 && checkDigit l 2 && checkDigit l 3 &&
      checkDigit l 4 && checkDigit l 5 && checkDigit l 6 && boundaryAfter l 7
  then some (l.take 7)
  else none

/- re.search's left-to-right scan: try the pattern at each position; the
flag pw records whether the previous character is a word character (false at
the start of the text), realizing the leading \b. -/
def scanOrder : Bool → List Char → Option (List Char)
  | _, [] => none
  | pw, c :: rest =>
    match if pw then none else matchHere (c :: rest) with
    | some t => some t
    | none => scanOrder (isWordChar c) rest

/- extract_shopify_order_name (src/scipt.py:113-122):
re.search(r"\bA\d{6}\b", note_text), returning the matched text or None. -/
def extract_shopify_order_name (note_text : String) : Option String :=
  (scanOrder false note_text.data).map (fun l => String.mk l)

/- Specification-side predicate: a standalone token starting at index i of l
consisting of the character `first` followed by exactly six decimal digits,
delimited by word boundaries on both sides. -/
def stdTokenAtB (first : Char) (l : List Char) (i : Nat) : Bool :=
  boundaryBefore l i && charIs l i first &&
  checkDigit l (i + 1) && checkDigit l (i + 2) && checkDigit l (i + 3) &&
  checkDigit l (i + 4) && checkDigit l (i + 5) && checkDigit l (i + 6) &&
  boundaryAfter l (i + 7)

/- stdTokenAtB 'A' phrased against a suffix of the text, with pw recording
whether the character preceding the suffix is a word character. -/
def stdTokenAux : Bool → List Char → Nat → Bool
  | pw, l, 0 => !pw && stdTokenAtB 'A' l 0
  | _, [], _ + 1 => false
  | _, c :: rest, i + 1 => stdTokenAux (isWordChar c) rest i

/- Boundary notions of claim C1's literal wording: the token must not be
embedded in a longer alphanumeric run (underscore not included). -/
def alnumBoundaryBefore (l : List Char) (i : Nat) : Bool :=
  match i with
  | 0 => true
  | j + 1 =>
    match l.get? j with
    | some c => !c.isAlphanum
    | none => false

def alnumBoundaryAfter (l : List Char) (k : Nat) : Bool :=
  match l.get? k with
  | some c => !c.isAlphanum
  | none => true

/- The character at index i exists and is an uppercase ASCII letter. -/
def upperAt (l : List Char) (i : Nat) : Bool :=
  match l.get? i with
  | some c => decide ('A' ≤ c) && decide (c ≤ 'Z')
  | none => false

/- Claim C1's original token notion: one uppercase ASCII letter followed by
exactly six decimal digits, not embedded in a longer alphanumeric run. -/
def upperAlnumTokenAtB (l : List Char) (i : Nat) : Bool :=
  alnumBoundaryBefore l i && upperAt l i &&
  checkDigit l (i + 1) && checkDigit l (i + 2) && checkDigit l (i + 3) &&
  checkDigit l (i + 4) && checkDigit l (i + 5) && checkDigit l (i + 6) &&
  alnumBoundaryAfter l (i + 7)

/- A Python datetime value as used by build_note_block: civil fields plus
an optional UTC offset in minutes (none models a naive datetime). -/
structure PyDateTime where
  year : Nat
  month : Nat
  day : Nat
  hour : Nat
  minute : Nat
  second : Nat
  offsetMinutes : Option Int
deriving DecidableEq

def digitCharAux : Nat → Char
  | 0 => '0'
  | 1 => '1'
  | 2 => '2'
  | 3 => '3'
  | 4 => '4'
  | 5 => '5'
  | 6 => '6'
  | 7 => '7'
  | 8 => '8'
  | _ => '9'

/- The character for the last decimal digit of a number. -/
def digitChar (n : Nat) : Char := digitCharAux (n % 10)

/- Zero-padded two-digit rendering (strftime %m, %d, %H, %M) of an in-range
field value. -/
def pad2c (n : Nat) : List Char := [digitChar (n / 10), digitChar n]

/- Zero-padded four-digit rendering (strftime %Y) of an in-range year. -/
def pad4c (n : Nat) : List Char :=
  [digitChar (n / 1000), digitChar (n / 100), digitChar (n / 10), digitChar n]

/- strftime("%Y-%m-%d %H:%M UTC") (src/scipt.py:147). -/
def formatDT (dt : PyDateTime) : String :=
  String.mk (pad4c dt.year ++ '-' :: pad2c dt.month ++ '-' :: pad2c dt.day ++
    ' ' :: pad2c dt.hour ++ ':' :: pad2c dt.minute ++ [' ', 'U', 'T', 'C'])

/- Days since 0000-03-01 of a civil date (standard civil-calendar counting,
used to realize datetime arithmetic on minutes). -/
def daysFromCivilN (y m d : Nat) : Nat :=
  let y2 := if m ≤ 2 then y - 1 else y
  let era := y2 / 400
  let yoe := y2 % 400
  let mp := if m ≤ 2 then m + 9 else m - 3
  let doy := (153 * mp + 2) / 5 + d - 1
  let doe := yoe * 365 + yoe / 4 - yoe / 100 + doy
  era * 146097 + doe

/- Inverse of daysFromCivilN: the civil date (year, month, day) of a day
count. -/
def civilFromDays (z : Nat) : Nat × Nat × Nat :=
  let era := z / 146097
  let doe := z % 146097
  let yoe := (doe - doe / 1460 + doe / 36524 - doe / 146096) / 365
  let y := yoe + era * 400
  let doy := doe - (365 * yoe + yoe / 4 - yoe / 100)
  let mp := (5 * doy + 2) / 153
  let d := doy - (153 * mp + 2) / 5 + 1
  let m := if mp < 10 then mp + 3 else mp - 9
  (if m ≤ 2 then y + 1 else y, m, d)

/- datetime.astimezone(timezone.utc): reinterpret the instant in UTC. A
naive datetime is interpreted at the process-local offset `localOff`. When
the effective offset is already zero the civil fields are unchanged;
otherwise the instant is shifted through minute arithmetic. -/
def toUTC (localOff : Int) (dt : PyDateTime) : PyDateTime :=
  let off := dt.offsetMinutes.getD localOff
  if off = 0 then { dt with offsetMinutes := some 0 }
  else
    let total : Int := (daysFromCivilN dt.year dt.month dt.day : Int) * 1440 +
      (dt.hour : Int) * 60 + (dt.minute : Int) - off
    let tn := total.toNat
    let ymd := civilFromDays (tn / 1440)
    { year := ymd.1, month := ymd.2.1, day := ymd.2.2,
      hour := tn % 1440 / 60, minute := tn % 1440 % 60,
      second := dt.second, offsetMinutes := some 0 }

/- created_at.replace("Z", "+00:00") (src/scipt.py:143): every occurrence of
the one-character pattern is substituted. -/
def replaceZchars : List Char → List Char
  | [] => []
  | c :: rest =>
    if c = 'Z' then '+' :: '0' :: '0' :: ':' :: '0' :: '0' :: replaceZchars rest
    else c :: replaceZchars rest

def digitVal (c : Char) : Nat := c.toNat - 48

/- Read exactly two decimal digits. -/
def read2 : List Char → Option (Nat × List Char)
  | a :: b :: rest =>
    if a.isDigit && b.isDigit then some (digitVal a * 10 + digitVal b, rest)
    else none
  | _ => none

/- Read exactly four decimal digits. -/
def read4 : List Char → Option (Nat × List Char)
  | a :: b :: c :: d :: rest =>
    if a.isDigit && b.isDigit && c.isDigit && d.isDigit then
      some (((digitVal a * 10 + digitVal b) * 10 + digitVal c) * 10 + digitVal d, rest)
    else none
  | _ => none

def isLeapYear (y : Nat) : Bool :=
  y % 4 == 0 && (y % 100 != 0 || y % 400 == 0)

def daysInMonth (y m : Nat) : Nat :=
  if m == 2 then (if isLeapYear y then 29 else 28)
  else if m == 4 || m == 6 || m == 9 || m == 11 then 30
  else 31

/- Skip an optional fractional-seconds part: a dot followed by one to six
digits (the value is discarded by the script's %H:%M rendering). -/
def readFrac : List Char → Option (List Char)
  | '.' :: rest =>
    let ds := (rest.takeWhile Char.isDigit).length
    if 1 ≤ ds && ds ≤ 6 then some (rest.drop ds) else none
  | l => some l

/- Read an offset magnitude of the form HH:MM, consuming the whole rest. -/
def readOffsetMag (l : List Char) : Option Nat :=
  match read2 l with
  | some (hh, ':' :: r2) =>
    match read2 r2 with
    | some (mm, []) =>
      if mm ≤ 59 && hh * 60 + mm ≤ 1439 then some (hh * 60 + mm) else none
    | _ => none
  | _ => none

/- Read the optional trailing timezone offset. -/
def readTZ (hh mm ss : Nat) (l : List Char) : Option (Nat × Nat × Nat × Option Int) :=
  match l with
  | [] => some (hh, mm, ss, none)
  | '+' :: r => (readOffsetMag r).map (fun n => (hh, mm, ss, some (Int.ofNat n)))
  | '-' :: r => (readOffsetMag r).map (fun n => (hh, mm, ss, some (-(Int.ofNat n))))
  | _ => none

/- Read the time-of-day part HH[:MM[:SS[.ffffff]]][+HH:MM] of an ISO-8601
string. -/
def readTime (l : List Char) : Option (Nat × Nat × Nat × Option Int) :=
  match read2 l with
  | some (hh, rest) =>
    if 24 ≤ hh then none
    else
      match rest with
      | ':' :: r1 =>
        match read2 r1 with
        | some (mm, rest2) =>
          if 60 ≤ mm then none
          else
            match rest2 with
            | ':' :: r2 =>
              match read2 r2 with
              | some (ss, rest3) =>
                if 60 ≤ ss then none
                else
                  match readFrac rest3 with
                  | some rest4 => readTZ hh mm ss rest4
                  | none => none
              | none => none
            | _ => readTZ hh mm 0 rest2
        | none => none
      | _ => readTZ hh 0 0 rest
  | none => none

/- datetime.fromisoformat on the script's input: YYYY-MM-DD, optionally a
one-character separator and a time-of-day with optional offset, with
calendar validation. -/
def parseISO (l : List Char) : Option PyDateTime :=
  match read4 l with
  | some (y, '-' :: r1) =>
    match read2 r1 with
    | some (m, '-' :: r2) =>
      match read2 r2 with
      | some (d, rest) =>
        if 1 ≤ y && 1 ≤ m && m ≤ 12 && 1 ≤ d && d ≤ daysInMonth y m then
          match rest with
          | [] => some ⟨y, m, d, 0, 0, 0, none⟩
          | _sep :: timePart =>
            match readTime timePart with
            | some (hh, mm, ss, off) => some ⟨y, m, d, hh, mm, ss, off⟩
            | none => none
        else none
      | _ => none
    | _ => none
  | _ => none

/- The try-block of build_note_block (src/scipt.py:142-145):
datetime.fromisoformat(created_at.replace("Z", "+00:00")), with a missing
created_at or any parse error yielding none (the except-branch). -/
def parsedCreated (created_at : Option String) : Option PyDateTime :=
  match created_at with
  | some s => parseISO (replaceZchars s.data)
  | none => none

/- build_note_block (src/scipt.py:137-150). `now` is the wall-clock
datetime.now(timezone.utc) fallback and `localOff` the process-local UTC
offset used by astimezone for naive parsed values. -/
def build_note_block (now : PyDateTime) (localOff : Int)
    (ticket_id agent_name : String) (created_at : Option String)
    (note_body : String) : String :=
  let dt := (parsedCreated created_at).getD now
  let date_str := formatDT (toUTC localOff dt)
  let header := "#" ++ ticket_id ++ " | " ++ agent_name ++ " | " ++ date_str
  header ++ "\n\n" ++ pyStrip note_body ++ "\n\n---\n"

/- Whether a string has the exact shape YYYY-MM-DD HH:MM UTC. -/
def timestampShape (s : String) : Bool :=
  match s.data with
  | [y1, y2, y3, y4, a, m1, m2, b, d1, d2, c, h1, h2, e, n1, n2, f, u, t, g] =>
    y1.isDigit && y2.isDigit && y3.isDigit && y4.isDigit && (a == '-') &&
    m1.isDigit && m2.isDigit && (b == '-') && d1.isDigit && d2.isDigit &&
    (c == ' ') && h1.isDigit && h2.isDigit && (e == ':') && n1.isDigit &&
    n2.isDigit && (f == ' ') && (u == 'U') && (t == 'T') && (g == 'C')
  | _ => false

/- The external collaborators of one run, as the script observes them: the
ticket's comments (newest first, as requested with sort_order=desc), the
user-name field per user id, the order-list response per order name, the
wall-clock UTC fallback instant and the process-local UTC offset. -/
structure Env where
  comments : List Comment
  userName : Nat → Option String
  orders : String → List Order
  now : PyDateTime
  localOffset : Int

/- get_zendesk_user_name (src/scipt.py:107-110):
user.get("name") or f"User {user_id}". -/
def get_zendesk_user_name (env : Env) (user_id : Nat) : String :=
  match env.userName user_id with
  | some n => if n = "" then "User " ++ toString user_id else n
  | none => "User " ++ toString user_id

/- find_shopify_order_by_name (src/scipt.py:125-134): the first order of the
lookup response, or None when the response is empty. -/
def find_shopify_order_by_name (env : Env) (order_name : String) : Option Order :=
  (env.orders order_name).head?

/- sync_ticket_to_shopify_note (src/scipt.py:181-213). Returns the trace of
external calls issued and the fatal-error message of fail(), if any; the
script's informational prints are not modelled. -/
def sync_ticket_to_shopify_note (env : Env) (ticket_id : String)
    (dry_run : Bool) : List ExtCall × Option String :=
  match get_latest_private_comment env.comments with
  | (none, _) =>
    ([ExtCall.getComments ticket_id],
      some ("No private comments found for ticket " ++ ticket_id))
  | (some comment, created_at) =>
    let note_body := pyStrip comment.body
    if note_body = "" then
      ([ExtCall.getComments ticket_id],
        some "Latest private comment has empty body")
    else
      let agent_name := get_zendesk_user_name env comment.author_id
      match extract_shopify_order_name note_body with
      | none =>
        ([ExtCall.getComments ticket_id, ExtCall.getUser comment.author_id],
          some "Could not find order name like \x27A123456\x27 in the private note")
      | some order_name =>
        match find_shopify_order_by_name env order_name with
        | none =>
          ([ExtCall.getComments ticket_id, ExtCall.getUser comment.author_id,
            ExtCall.getOrders order_name],
            some ("Shopify order with name " ++ order_name ++ " not found"))
        | some order =>
          let note_block := build_note_block env.now env.localOffset ticket_id
            agent_name created_at note_body
          ([ExtCall.getComments ticket_id, ExtCall.getUser comment.author_id,
            ExtCall.getOrders order_name] ++
            (append_note_to_shopify_order order note_block dry_run).1, none)

/- ===== Theorems ===== -/

/- The predicate used by get_latest_private_comment selects exactly the
comments whose public flag is present and false. -/
theorem private_pred_iff (c : Comment) :
    ((!(c.public.getD true)) = true) ↔ c.public = some false := by
  rcases hc : c.public with _ | b
  · simp [hc]
  · cases b <;> simp [hc]

/-- C2: if at least one comment has its public flag equal to false,
get_latest_private_comment returns the first such comment in the given list
order (together with its created_at), regardless of entries after it; if
every comment has its public flag equal to true, it returns (none, none). -/
theorem c2_get_latest_private_comment_first (comments : List Comment) :
    ((∀ c ∈ comments, c.public = some true) →
      get_latest_private_comment comments = (none, none)) ∧
    (∀ pre c post, comments = pre ++ c :: post → c.public = some false →
      (∀ c' ∈ pre, c'.public ≠ some false) →
      get_latest_private_comment comments = (some c, c.created_at)) := by
  constructor
  · intro hall
    have hfind : comments.find? (fun c => !(c.public.getD true)) = none := by
      apply List.find?_eq_none.mpr
      intro c hc
      have := hall c hc
      simp [this]
    simp [get_latest_private_comment, hfind]
  · intro pre c post heq hfalse hpre
    subst heq
    have hfind : (pre ++ c :: post).find? (fun x => !(x.public.getD true)) = some c := by
      induction pre with
      | nil =>
        have hc : (!(c.public.getD true)) = true := (private_pred_iff c).mpr hfalse
        simp [List.find?, hc]
      | cons a pre' ih =>
        have ha : (!(a.public.getD true)) = false := by
          have hne := hpre a (by simp)
          rcases hx : a.public with _ | b
          · simp [hx]
          · cases b
            · exact absurd hx hne
            · simp [hx]
        have ih' := ih (fun c' hc' => hpre c' (by simp [hc']))
        simpa [List.find?, ha] using ih'
    simp [get_latest_private_comment, hfind]

theorem c2_witness :
    ((⟨some false, "b", 2, some "t2"⟩ : Comment).public = some false) ∧
    get_latest_private_comment
      [⟨some true, "a", 1, some "t1"⟩, ⟨some false, "b", 2, some "t2"⟩] =
      (some ⟨some false, "b", 2, some "t2"⟩, some "t2") :=
  ⟨rfl, (c2_get_latest_private_comment_first _).2
    [⟨some true, "a", 1, some "t1"⟩] ⟨some false, "b", 2, some "t2"⟩ [] rfl rfl
    (by decide)⟩

/-- C10: a comment returned by get_latest_private_comment always carries an
explicitly false public flag; in particular a comment that lacks the flag
(defaulted to true) is never selected. -/
theorem c10_selected_has_explicit_false_flag (comments : List Comment)
    (c : Comment) (ca : Option String)
    (h : get_latest_private_comment comments = (some c, ca)) :
    c.public = some false := by
  unfold get_latest_private_comment at h
  rcases hf : comments.find? (fun x => !(x.public.getD true)) with _ | c'
  · rw [hf] at h
    simp at h
  · rw [hf] at h
    have hp := List.find?_some hf
    have hc : c' = c := by
      simp at h
      exact h.1
    subst hc
    exact (private_pred_iff c').mp hp

theorem c10_witness :
    get_latest_private_comment [⟨some false, "hi", 1, some "t"⟩] =
      (some ⟨some false, "hi", 1, some "t"⟩, some "t") ∧
    (⟨some false, "hi", 1, some "t"⟩ : Comment).public = some false :=
  ⟨by decide, c10_selected_has_explicit_false_flag
    [⟨some false, "hi", 1, some "t"⟩] ⟨some false, "hi", 1, some "t"⟩ (some "t")
    (by decide)⟩

/-- C3: if the order's existing note is empty or whitespace-only, the merged
note is exactly the block; otherwise it is the existing note with trailing
whitespace stripped, then one blank line, then the block. -/
theorem c3_merge_policy (order : Order) (note_block : String) :
    (pyStrip (order.note.getD "") = "" → new_note_of order note_block = note_block) ∧
    (pyStrip (order.note.getD "") ≠ "" →
      new_note_of order note_block =
        pyRstrip (order.note.getD "") ++ "\n\n" ++ note_block) := by
  constructor
  · intro h
    simp [new_note_of, h]
  · intro h
    simp [new_note_of, h]

theorem c3_witness :
    (pyStrip ((Order.mk 7 none (some "Prior note\n")).note.getD "") ≠ "") ∧
    new_note_of (Order.mk 7 none (some "Prior note\n")) "#1 | D | T\n\nB\n\n---\n" =
      pyRstrip ((Order.mk 7 none (some "Prior note\n")).note.getD "") ++ "\n\n" ++
        "#1 | D | T\n\nB\n\n---\n" :=
  ⟨by decide, (c3_merge_policy _ _).2 (by decide)⟩

theorem c4_counterexample :
    new_note_of (Order.mk 1 none (some "Prior note ")) "X" = "Prior note\n\nX" ∧
    List.isPrefixOf ("Prior note ".data) ("Prior note\n\nX".data) = false := by
  decide

/-- C4 (amended): for a non-whitespace existing note, the prior note content
is retained up to its trailing whitespace: the prior note equals its
trailing-whitespace-stripped form followed by whitespace, and that stripped
form is extended by exactly one blank line and the block in the new note. -/
theorem c4_prior_note_retained (order : Order) (note_block : String)
    (h : pyStrip (order.note.getD "") ≠ "") :
    ∃ ws : String,
      (∀ c ∈ ws.data, pyIsSpace c = true) ∧
      order.note.getD "" = pyRstrip (order.note.getD "") ++ ws ∧
      new_note_of order note_block =
        pyRstrip (order.note.getD "") ++ "\n\n" ++ note_block := by
  refine ⟨String.mk (((order.note.getD "").data.reverse.takeWhile pyIsSpace).reverse),
    ?_, ?_, ?_⟩
  · intro c hc
    have hc' : c ∈ ((order.note.getD "").data.reverse.takeWhile pyIsSpace) := by
      simpa using hc
    exact List.mem_takeWhile_imp hc'
  · have hsplit := List.takeWhile_append_dropWhile (p := pyIsSpace)
      (l := (order.note.getD "").data.reverse)
    have h2 := congrArg List.reverse hsplit
    rw [List.reverse_append, List.reverse_reverse] at h2
    exact congrArg String.mk h2.symm
  · simp [new_note_of, h]

theorem c4_witness :
    (pyStrip ((Order.mk 1 none (some "Prior note ")).note.getD "") ≠ "") ∧
    ∃ ws : String,
      (∀ c ∈ ws.data, pyIsSpace c = true) ∧
      (Order.mk 1 none (some "Prior note ")).note.getD "" =
        pyRstrip ((Order.mk 1 none (some "Prior note ")).note.getD "") ++ ws ∧
      new_note_of (Order.mk 1 none (some "Prior note ")) "X" =
        pyRstrip ((Order.mk 1 none (some "Prior note ")).note.getD "") ++ "\n\n" ++ "X" :=
  ⟨by decide, c4_prior_note_retained (Order.mk 1 none (some "Prior note ")) "X" (by decide)⟩

/-- C7: in dry-run mode append_note_to_shopify_order issues no external call
and surfaces the would-be new note, computed by the same merge function as
the real path; with dry_run false it issues exactly the one PUT of that same
merged note. -/
theorem c7_dry_run_no_write (order : Order) (note_block : String) :
    append_note_to_shopify_order order note_block true =
      ([], some (new_note_of order note_block)) ∧
    append_note_to_shopify_order order note_block false =
      ([ExtCall.putOrder order.id (new_note_of order note_block)], none) := by
  constructor <;> rfl

theorem digitCharAux_isDigit : ∀ k, k < 10 → (digitCharAux k).isDigit = true := by
  decide

theorem isDigit_digitChar (n : Nat) : (digitChar n).isDigit = true :=
  digitCharAux_isDigit (n % 10) (by omega)

theorem timestampShape_formatDT (dt : PyDateTime) :
    timestampShape (formatDT dt) = true := by
  simp [timestampShape, formatDT, pad4c, pad2c, isDigit_digitChar]

/-- C5: build_note_block on ticket 123456, agent Dana, created_at
2024-03-01T15:04:00Z and body "  Hello world  " yields exactly the header
line, a blank line, the stripped body, a blank line, the terminator and a
trailing newline — independently of the wall-clock fallback. -/
theorem c5_build_note_block_example (now : PyDateTime) (lo : Int) :
    build_note_block now lo "123456" "Dana" (some "2024-03-01T15:04:00Z")
      "  Hello world  " =
      "#123456 | Dana | 2024-03-01 15:04 UTC\n\nHello world\n\n---\n" := by
  have h1 : toUTC lo ((parsedCreated (some "2024-03-01T15:04:00Z")).getD now) =
      ⟨2024, 3, 1, 15, 4, 0, some 0⟩ := rfl
  simp only [build_note_block]
  rw [h1]
  rfl

/-- C6: for every created_at on which timestamp parsing fails,
build_note_block still produces the block, substituting the wall-clock UTC
fallback `now`, and its timestamp is rendered in the YYYY-MM-DD HH:MM UTC
shape. -/
theorem c6_build_fallback (now : PyDateTime) (lo : Int)
    (ticket_id agent_name : String) (created_at : Option String)
    (note_body : String) (h : parsedCreated created_at = none) :
    build_note_block now lo ticket_id agent_name created_at note_body =
      "#" ++ ticket_id ++ " | " ++ agent_name ++ " | " ++
        formatDT (toUTC lo now) ++ "\n\n" ++ pyStrip note_body ++ "\n\n---\n" ∧
    timestampShape (formatDT (toUTC lo now)) = true := by
  constructor
  · simp [build_note_block, h]
  · exact timestampShape_formatDT _

theorem c6_witness :
    parsedCreated (some "not-a-timestamp") = none ∧
    (build_note_block ⟨2025, 6, 1, 12, 30, 0, some 0⟩ 0 "1" "Ag"
        (some "not-a-timestamp") "b" =
      "#" ++ "1" ++ " | " ++ "Ag" ++ " | " ++
        formatDT (toUTC 0 ⟨2025, 6, 1, 12, 30, 0, some 0⟩) ++ "\n\n" ++
        pyStrip "b" ++ "\n\n---\n" ∧
      timestampShape (formatDT (toUTC 0 ⟨2025, 6, 1, 12, 30, 0, some 0⟩)) = true) :=
  ⟨by decide, c6_build_fallback ⟨2025, 6, 1, 12, 30, 0, some 0⟩ 0 "1" "Ag"
    (some "not-a-timestamp") "b" (by decide)⟩

theorem stdTokenAtB_nil (f : Char) (i : Nat) : stdTokenAtB f [] i = false := by
  cases i <;> simp [stdTokenAtB, charIs, List.get?_nil]

theorem stdTokenAux_nil (pw : Bool) (i : Nat) : stdTokenAux pw [] i = false := by
  cases i with
  | zero =>
    show (!pw && stdTokenAtB 'A' [] 0) = false
    rw [stdTokenAtB_nil]
    simp
  | succ i => rfl

theorem matchHere_isSome (l : List Char) :
    (matchHere l).isSome = stdTokenAtB 'A' l 0 := by
  by_cases h : (charIs l 0 'A' && checkDigit l 1 && checkDigit l 2 && checkDigit l 3 &&
      checkDigit l 4 && checkDigit l 5 && checkDigit l 6 && boundaryAfter l 7) = true
  · simp [matchHere, h, stdTokenAtB, boundaryBefore]
  · simp only [Bool.not_eq_true] at h
    simp [matchHere, h, stdTokenAtB, boundaryBefore]

theorem matchHere_eq_some (l t : List Char) (h : matchHere l = some t) :
    t = l.take 7 := by
  unfold matchHere at h
  split at h
  · exact (Option.some.inj h).symm
  · exact absurd h (by simp)

theorem stdTokenAtB_cons_one (f c : Char) (l : List Char) :
    stdTokenAtB f (c :: l) 1 = (!isWordChar c && stdTokenAtB f l 0) := by
  show (!isWordChar c && charIs l 0 f && checkDigit l 1 && checkDigit l 2 &&
      checkDigit l 3 && checkDigit l 4 && checkDigit l 5 && checkDigit l 6 &&
      boundaryAfter l 7) =
    (!isWordChar c && (true && charIs l 0 f && checkDigit l 1 && checkDigit l 2 &&
      checkDigit l 3 && checkDigit l 4 && checkDigit l 5 && checkDigit l 6 &&
      boundaryAfter l 7))
  cases isWordChar c <;> simp [Bool.and_assoc]

theorem stdTokenAtB_cons_succ (f c : Char) (l : List Char) (i : Nat) :
    stdTokenAtB f (c :: l) (i + 2) = stdTokenAtB f l (i + 1) := rfl

theorem stdTokenAux_zero (pw : Bool) (l : List Char) :
    stdTokenAux pw l 0 = (!pw && stdTokenAtB 'A' l 0) := by
  cases l <;> rfl

theorem stdTokenAtB_cons_aux (c : Char) (l : List Char) :
    ∀ i, stdTokenAtB 'A' (c :: l) (i + 1) = stdTokenAux (isWordChar c) l i := by
  intro i
  induction i generalizing c l with
  | zero =>
    rw [stdTokenAux_zero]
    exact stdTokenAtB_cons_one 'A' c l
  | succ i ih =>
    cases l with
    | nil =>
      rw [stdTokenAtB_cons_succ]
      rw [stdTokenAtB_nil]
      rfl
    | cons d rest =>
      rw [stdTokenAtB_cons_succ]
      show stdTokenAtB 'A' (d :: rest) (i + 1) = stdTokenAux (isWordChar d) rest i
      exact ih d rest

theorem stdTokenAtB_eq_aux (l : List Char) (i : Nat) :
    stdTokenAtB 'A' l i = stdTokenAux false l i := by
  cases i with
  | zero =>
    rw [stdTokenAux_zero]
    simp
  | succ i =>
    cases l with
    | nil =>
      rw [stdTokenAtB_nil, stdTokenAux_nil]
    | cons c rest =>
      exact stdTokenAtB_cons_aux c rest i

theorem stdTokenAux_forall_iff (pw : Bool) (c : Char) (rest : List Char)
    (h0 : stdTokenAux pw (c :: rest) 0 = false) :
    (∀ i, stdTokenAux pw (c :: rest) i = false) ↔
    (∀ i, stdTokenAux (isWordChar c) rest i = false) := by
  constructor
  · intro h i
    exact h (i + 1)
  · intro h i
    cases i with
    | zero => exact h0
    | succ i => exact h i

theorem scanOrder_none_iff (l : List Char) :
    ∀ pw, scanOrder pw l = none ↔ ∀ i, stdTokenAux pw l i = false := by
  induction l with
  | nil =>
    intro pw
    constructor
    · intro _ i
      exact stdTokenAux_nil pw i
    · intro _
      rfl
  | cons c rest ih =>
    intro pw
    cases pw with
    | true =>
      have hscan : scanOrder true (c :: rest) = scanOrder (isWordChar c) rest := by
        simp [scanOrder]
      have h0 : stdTokenAux true (c :: rest) 0 = false := by
        show (!true && stdTokenAtB 'A' (c :: rest) 0) = false
        simp
      rw [hscan]
      exact (ih (isWordChar c)).trans (stdTokenAux_forall_iff _ _ _ h0).symm
    | false =>
      cases hm : matchHere (c :: rest) with
      | some t =>
        have hscan : scanOrder false (c :: rest) = some t := by
          simp [scanOrder, hm]
        have h0 : stdTokenAux false (c :: rest) 0 = true := by
          show (!false && stdTokenAtB 'A' (c :: rest) 0) = true
          rw [← matchHere_isSome, hm]
          rfl
        constructor
        · intro hc
          rw [hscan] at hc
          exact absurd hc (by simp)
        · intro hall
          have := hall 0
          rw [h0] at this
          exact absurd this (by simp)
      | none =>
        have hscan : scanOrder false (c :: rest) = scanOrder (isWordChar c) rest := by
          simp [scanOrder, hm]
        have h0 : stdTokenAux false (c :: rest) 0 = false := by
          show (!false && stdTokenAtB 'A' (c :: rest) 0) = false
          rw [← matchHere_isSome, hm]
          rfl
        rw [hscan]
        exact (ih (isWordChar c)).trans (stdTokenAux_forall_iff _ _ _ h0).symm

theorem scanOrder_first (l : List Char) :
    ∀ pw i, stdTokenAux pw l i = true →
      (∀ j, j < i → stdTokenAux pw l j = false) →
      scanOrder pw l = some ((l.drop i).take 7) := by
  induction l with
  | nil =>
    intro pw i h _
    rw [stdTokenAux_nil] at h
    exact absurd h (by simp)
  | cons c rest ih =>
    intro pw i h hmin
    cases i with
    | zero =>
      have h' : (!pw && (matchHere (c :: rest)).isSome) = true := by
        rw [matchHere_isSome]
        exact h
      have hpw : pw = false := by
        cases pw
        · rfl
        · simp at h'
      subst hpw
      have hsome : (matchHere (c :: rest)).isSome = true := by
        simpa using h'
      obtain ⟨t, ht⟩ := Option.isSome_iff_exists.mp hsome
      have ht7 : t = (c :: rest).take 7 := matchHere_eq_some _ _ ht
      show scanOrder false (c :: rest) = some (((c :: rest).drop 0).take 7)
      simp [scanOrder, ht, ht7]
    | succ i =>
      have h0 : stdTokenAux pw (c :: rest) 0 = false := hmin 0 (Nat.succ_pos i)
      have hscan : scanOrder pw (c :: rest) = scanOrder (isWordChar c) rest := by
        cases pw with
        | true => simp [scanOrder]
        | false =>
          have hns : (matchHere (c :: rest)).isSome = false := by
            rw [matchHere_isSome]
            simpa using h0
          have hm : matchHere (c :: rest) = none := by
            cases hmm : matchHere (c :: rest)
            · rfl
            · rw [hmm] at hns
              simp at hns
          simp [scanOrder, hm]
      rw [hscan]
      have h1 : stdTokenAux (isWordChar c) rest i = true := h
      have h2 : ∀ j, j < i → stdTokenAux (isWordChar c) rest j = false :=
        fun j hj => hmin (j + 1) (Nat.succ_lt_succ hj)
      exact ih (isWordChar c) i h1 h2

theorem c1_counterexample :
    (upperAlnumTokenAtB ("B123456".data) 0 = true ∧
      extract_shopify_order_name "B123456" = none) ∧
    (upperAlnumTokenAtB ("A123456_x".data) 0 = true ∧
      extract_shopify_order_name "A123456_x" = none) := by
  decide

/-- C1 (amended): extract_shopify_order_name returns none exactly when the
text contains no standalone token of the literal letter 'A' followed by six
decimal digits delimited by word boundaries (word characters being ASCII
letters, digits and underscore); and when such tokens exist it returns
precisely the seven characters of the leftmost one. -/
theorem c1_extract_leftmost_A_token (s : String) :
    (extract_shopify_order_name s = none ↔
      ∀ i, stdTokenAtB 'A' s.data i = false) ∧
    (∀ i, stdTokenAtB 'A' s.data i = true →
      (∀ j, j < i → stdTokenAtB 'A' s.data j = false) →
      extract_shopify_order_name s = some (String.mk ((s.data.drop i).take 7))) := by
  constructor
  · unfold extract_shopify_order_name
    rw [Option.map_eq_none']
    rw [scanOrder_none_iff]
    constructor
    · intro h i
      rw [stdTokenAtB_eq_aux]
      exact h i
    · intro h i
      rw [← stdTokenAtB_eq_aux]
      exact h i
  · intro i h hmin
    have h1 : stdTokenAux false s.data i = true := by
      rw [← stdTokenAtB_eq_aux]
      exact h
    have h2 : ∀ j, j < i → stdTokenAux false s.data j = false := by
      intro j hj
      rw [← stdTokenAtB_eq_aux]
      exact hmin j hj
    have hs := scanOrder_first s.data false i h1 h2
    unfold extract_shopify_order_name
    rw [hs]
    rfl

theorem c1_witness :
    stdTokenAtB 'A' ("see A123456 and A222222".data) 4 = true ∧
    extract_shopify_order_name "see A123456 and A222222" =
      some (String.mk ((("see A123456 and A222222".data).drop 4).take 7)) :=
  ⟨by decide, (c1_extract_leftmost_A_token "see A123456 and A222222").2 4
    (by decide) (by decide)⟩

/-- C9: when the selected private comment has an empty or whitespace-only
body, the pipeline aborts with the empty-body error having issued only the
comment fetch: no user fetch, no order lookup and no order write occur. -/
theorem c9_empty_body_aborts (env : Env) (ticket_id : String) (dry_run : Bool)
    (c : Comment) (ca : Option String)
    (h1 : get_latest_private_comment env.comments = (some c, ca))
    (h2 : pyStrip c.body = "") :
    sync_ticket_to_shopify_note env ticket_id dry_run =
      ([ExtCall.getComments ticket_id],
        some "Latest private comment has empty body") := by
  simp [sync_ticket_to_shopify_note, h1, h2]

theorem c9_witness :
    (pyStrip (Comment.mk (some false) "   " 3 (some "t")).body = "") ∧
    sync_ticket_to_shopify_note
      (Env.mk [Comment.mk (some false) "   " 3 (some "t")] (fun _ => none)
        (fun _ => []) (PyDateTime.mk 2025 1 1 0 0 0 (some 0)) 0) "9" true =
      ([ExtCall.getComments "9"], some "Latest private comment has empty body") :=
  ⟨by decide, c9_empty_body_aborts
    (Env.mk [Comment.mk (some false) "   " 3 (some "t")] (fun _ => none)
      (fun _ => []) (PyDateTime.mk 2025 1 1 0 0 0 (some 0)) 0) "9" true
    (Comment.mk (some false) "   " 3 (some "t")) (some "t")
    (by decide) (by decide)⟩

/-- C8: on each failure path (no private comment, empty comment body, no
extractable order reference, or no matching order) the pipeline ends in a
fatal error and its trace of external calls contains no order-note write, so
nothing external is mutated. -/
theorem c8_no_write_on_failure (env : Env) (ticket_id : String) (dry_run : Bool)
    (h : get_latest_private_comment env.comments = (none, none) ∨
      (∃ c ca, get_latest_private_comment env.comments = (some c, ca) ∧
        pyStrip c.body = "") ∨
      (∃ c ca, get_latest_private_comment env.comments = (some c, ca) ∧
        pyStrip c.body ≠ "" ∧
        extract_shopify_order_name (pyStrip c.body) = none) ∨
      (∃ c ca nm, get_latest_private_comment env.comments = (some c, ca) ∧
        pyStrip c.body ≠ "" ∧
        extract_shopify_order_name (pyStrip c.body) = some nm ∧
        find_shopify_order_by_name env nm = none)) :
    (sync_ticket_to_shopify_note env ticket_id dry_run).2 ≠ none ∧
    (sync_ticket_to_shopify_note env ticket_id dry_run).1.all
      (fun call => !isPut call) = true := by
  rcases h with h1 | ⟨c, ca, h1, h2⟩ | ⟨c, ca, h1, h2, h3⟩ | ⟨c, ca, nm, h1, h2, h3, h4⟩
  · constructor
    · simp [sync_ticket_to_shopify_note, h1]
    · simp [sync_ticket_to_shopify_note, h1, isPut]
  · constructor
    · simp [sync_ticket_to_shopify_note, h1, h2]
    · simp [sync_ticket_to_shopify_note, h1, h2, isPut]
  · constructor
    · simp [sync_ticket_to_shopify_note, h1, h2, h3]
    · simp [sync_ticket_to_shopify_note, h1, h2, h3, isPut]
  · constructor
    · simp [sync_ticket_to_shopify_note, h1, h2, h3, h4]
    · simp [sync_ticket_to_shopify_note, h1, h2, h3, h4, isPut]

theorem c8_witness :
    (get_latest_private_comment
      (Env.mk [] (fun _ => none) (fun _ => [])
        (PyDateTime.mk 2025 1 1 0 0 0 (some 0)) 0).comments = (none, none)) ∧
    (sync_ticket_to_shopify_note
      (Env.mk [] (fun _ => none) (fun _ => [])
        (PyDateTime.mk 2025 1 1 0 0 0 (some 0)) 0) "5" false).2 ≠ none ∧
    (sync_ticket_to_shopify_note
      (Env.mk [] (fun _ => none) (fun _ => [])
        (PyDateTime.mk 2025 1 1 0 0 0 (some 0)) 0) "5" false).1.all
      (fun call => !isPut call) = true :=
  ⟨by decide, c8_no_write_on_failure
    (Env.mk [] (fun _ => none) (fun _ => [])
      (PyDateTime.mk 2025 1 1 0 0 0 (some 0)) 0) "5" false
    (Or.inl (by decide))⟩

end ZSync
